import Mathlib

/-!
Shallow embedding of the movement / collision / scheduling core of the
`suzu` repository (Rust), for checking the natural-language specification
against the code.

Conventions of the embedding:
* `f32` values are modelled as exact rationals (`ℚ`); the operations the
  claims are about (comparison, addition, subtraction, multiplication by
  constants) are treated as exact arithmetic.
* `torifune::core::Clock` (an integer tick counter) is modelled as `ℕ`.
* Rust code that can panic (`unwrap`, remainder by zero) is modelled with
  `Option`, `none` standing for the panic.
* Methods taking `&mut self` are modelled as state transformers
  `State → … → State` (or `State × result`).
* The repository contains two generations of the same module:
  `src/object.rs` (embedded below in namespace `ObjectRs`) and
  `src/object/map_object.rs` (namespace `MapObjectRs`).  Both are embedded
  because the claims cite both.
* A `ggez::Context` argument is only ever used by this code to query the
  drawing size of the current texture; the embedding passes that size
  (`ds : Vector2f`) explicitly.
-/

/-- `torifune::numeric::Vector2f` / `Point2f`: a pair of `f32` components,
modelled over `ℚ`.  Points and vectors are structurally identical in the
source and are merged into one type here. -/
structure Vector2f where
  x : ℚ
  y : ℚ
deriving DecidableEq, Repr

instance : Add Vector2f := ⟨fun a b => ⟨a.x + b.x, a.y + b.y⟩⟩

instance : Sub Vector2f := ⟨fun a b => ⟨a.x - b.x, a.y - b.y⟩⟩

@[simp] theorem Vector2f.add_def (a b : Vector2f) :
    a + b = ⟨a.x + b.x, a.y + b.y⟩ := rfl

@[simp] theorem Vector2f.sub_def (a b : Vector2f) :
    a - b = ⟨a.x - b.x, a.y - b.y⟩ := rfl

/-- `torifune::numeric::Rect`: x, y of the top-left corner plus width and
height (for the collision crop the `w`/`h` fields actually hold the
right/bottom fractional coordinates, exactly as in the source). -/
structure Rect where
  x : ℚ
  y : ℚ
  w : ℚ
  h : ℚ
deriving DecidableEq, Repr

/-- Modelled from the spec: torifune/ggez `Rect::overlaps` (the crate is not
part of src/) — the axis-aligned rectangle intersection test, with closed
boundary comparisons. -/
def Rect.overlaps (a b : Rect) : Bool :=
  decide (a.x ≤ b.x + b.w) && decide (b.x ≤ a.x + a.w) &&
  decide (a.y ≤ b.y + b.h) && decide (b.y ≤ a.y + a.h)

/-- The center point of a rectangle.  This definition follows the SPEC's
words ("`center_diff = center(box2) - center(box1)`"), to be compared with
what the source actually computes. -/
def Rect.center (r : Rect) : Vector2f :=
  ⟨r.x + r.w / 2, r.y + r.h / 2⟩

/-- `SpeedBorder` (defined identically in `src/object.rs` and
`src/object/map_object.rs`): the four per-axis speed limits. -/
structure SpeedBorder where
  positive_x : ℚ
  negative_x : ℚ
  positive_y : ℚ
  negative_y : ℚ
deriving DecidableEq, Repr

/-- `SpeedBorder::round_speed_x`. -/
def SpeedBorder.round_speed_x (b : SpeedBorder) (speed : ℚ) : ℚ :=
  if speed > b.positive_x then b.positive_x
  else if speed < b.negative_x then b.negative_x
  else speed

/-- `SpeedBorder::round_speed_y`. -/
def SpeedBorder.round_speed_y (b : SpeedBorder) (speed : ℚ) : ℚ :=
  if speed > b.positive_y then b.positive_y
  else if speed < b.negative_y then b.negative_y
  else speed

/-- Modelled from the spec: `CollisionInformation`
(`crate::object::collision` / `crate::core::map_parser`, whose source file
is not under src/; the fields and constructors are fixed by the call sites
and by §3 of the spec: a `collided` flag, the two boxes, and the
center-difference vector, all absent when not collided). -/
structure CollisionInformation where
  collision : Bool
  object1_position : Option Rect
  object2_position : Option Rect
  center_diff : Option Vector2f
deriving DecidableEq, Repr

/-- `CollisionInformation::new_collision`. -/
def CollisionInformation.new_collision (a1 a2 : Rect) (diff : Vector2f) :
    CollisionInformation :=
  ⟨true, some a1, some a2, some diff⟩

/-- `CollisionInformation::new_not_collision`. -/
def CollisionInformation.new_not_collision : CollisionInformation :=
  ⟨false, none, none, none⟩

namespace MapObjectRs

/-- `TextureSpeedInfo` from `src/object/map_object.rs` (lines 60-92):
stored velocity plus the border configuration. -/
structure TextureSpeedInfo where
  speed : Vector2f
  speed_border : SpeedBorder
deriving DecidableEq, Repr

/-- `TextureSpeedInfo::add_speed` (map_object.rs line 73): adds the raw
vector; no clamping happens here. -/
def TextureSpeedInfo.add_speed (s : TextureSpeedInfo) (v : Vector2f) :
    TextureSpeedInfo :=
  { s with speed := s.speed + v }

/-- `TextureSpeedInfo::set_speed` (map_object.rs line 77): stores the raw
vector; no clamping happens here. -/
def TextureSpeedInfo.set_speed (s : TextureSpeedInfo) (v : Vector2f) :
    TextureSpeedInfo :=
  { s with speed := v }

/-- `TextureSpeedInfo::set_speed_x` (map_object.rs line 81): clamps through
`round_speed_x` before storing. -/
def TextureSpeedInfo.set_speed_x (s : TextureSpeedInfo) (v : ℚ) :
    TextureSpeedInfo :=
  { s with speed := ⟨s.speed_border.round_speed_x v, s.speed.y⟩ }

/-- `TextureSpeedInfo::set_speed_y` (map_object.rs line 85). -/
def TextureSpeedInfo.set_speed_y (s : TextureSpeedInfo) (v : ℚ) :
    TextureSpeedInfo :=
  { s with speed := ⟨s.speed.x, s.speed_border.round_speed_y v⟩ }

/-- `TextureSpeedInfo::get_speed`. -/
def TextureSpeedInfo.get_speed (s : TextureSpeedInfo) : Vector2f :=
  s.speed

/-- `TwoStepPoint` (map_object.rs lines 244-263). -/
structure TwoStepPoint where
  previous : Vector2f
  current : Vector2f
deriving DecidableEq, Repr

/-- `TwoStepPoint::diff`. -/
def TwoStepPoint.diff (p : TwoStepPoint) : Vector2f :=
  p.current - p.previous

/-- `TwoStepPoint::update`. -/
def TwoStepPoint.update (p : TwoStepPoint) (pos : Vector2f) : TwoStepPoint :=
  { previous := p.current, current := pos }

/-- `TwoStepPoint::move_diff`. -/
def TwoStepPoint.move_diff (p : TwoStepPoint) (pos : Vector2f) : TwoStepPoint :=
  { previous := p.current, current := p.current + pos }

/-- `MapObject` from `src/object/map_object.rs` (lines 276-304).  The
texture-animation machinery is irrelevant to the claims; of the inner
drawable only its position (`obj().get_position()` / `set_position`) is
kept, as field `object_position`. -/
structure MapObject where
  last_position : Vector2f
  object_position : Vector2f
  speed_info : TextureSpeedInfo
  map_position : TwoStepPoint
  collision_crop : Rect
deriving DecidableEq, Repr

/-- `MapObject::new` (map_object.rs line 285): `last_position` is captured
from the drawable's position; the two-step point starts with
`previous = current = map_position`. -/
def MapObject.new (obj_position : Vector2f) (speed_info : TextureSpeedInfo)
    (map_position : Vector2f) (collision_crop : Rect) : MapObject :=
  { last_position := obj_position
    object_position := obj_position
    speed_info := speed_info
    map_position := { previous := map_position, current := map_position }
    collision_crop := collision_crop }

/-- `MapObject::get_collision_size` (map_object.rs line 319); `ds` is the
drawing size obtained from the ggez context. -/
def MapObject.get_collision_size (m : MapObject) (ds : Vector2f) : Vector2f :=
  ⟨ds.x * (m.collision_crop.w - m.collision_crop.x),
   ds.y * (m.collision_crop.h - m.collision_crop.y)⟩

/-- `MapObject::get_collision_top_offset` (map_object.rs line 328). -/
def MapObject.get_collision_top_offset (m : MapObject) (ds : Vector2f) :
    Vector2f :=
  ⟨ds.x * m.collision_crop.x, ds.y * m.collision_crop.y⟩

/-- `MapObject::get_collision_area` (map_object.rs line 306). -/
def MapObject.get_collision_area (m : MapObject) (ds : Vector2f) : Rect :=
  let size := m.get_collision_size ds
  let off := m.get_collision_top_offset ds
  ⟨m.object_position.x + off.x, m.object_position.y + off.y, size.x, size.y⟩

/-- `MapObject::get_last_position` (map_object.rs line 356). -/
def MapObject.get_last_position (m : MapObject) : Vector2f :=
  m.last_position

/-- `MapObject::undo_move` (map_object.rs lines 360-363): sets the
drawable's position to `last_position`. -/
def MapObject.undo_move (m : MapObject) : MapObject :=
  { m with object_position := m.get_last_position }

/-- `MapObject::move_map` (map_object.rs line 483). -/
def MapObject.move_map (m : MapObject) (offset : Vector2f) : MapObject :=
  { m with map_position := m.map_position.move_diff offset }

/-- `MapObject::set_map_position_with_collision_top_offset`
(map_object.rs line 377). -/
def MapObject.set_map_position_with_collision_top_offset (m : MapObject)
    (ds : Vector2f) (position : Vector2f) : MapObject :=
  { m with map_position :=
      m.map_position.update (position - m.get_collision_top_offset ds) }

/-- `MapObject::get_map_position_with_collision_top_offset`
(map_object.rs line 382). -/
def MapObject.get_map_position_with_collision_top_offset (m : MapObject)
    (ds : Vector2f) : Vector2f :=
  m.map_position.current + m.get_collision_top_offset ds

/-- `MapObject::set_map_position` (map_object.rs line 560, trait `OnMap`). -/
def MapObject.set_map_position (m : MapObject) (position : Vector2f) :
    MapObject :=
  { m with map_position := m.map_position.update position }

/-- Modelled from the spec: `crate::core::map_parser::map_to_display`
(map_parser.rs is not under src/): `screen_pos = map_pos - camera.origin`. -/
def map_to_display (pos : Vector2f) (camera : Rect) : Vector2f :=
  ⟨pos.x - camera.x, pos.y - camera.y⟩

/-- `MapObject::update_display_position` (map_object.rs line 487). -/
def MapObject.update_display_position (m : MapObject) (camera : Rect) :
    MapObject :=
  { m with object_position := map_to_display m.map_position.current camera }

/-- `MapObject::fix_collision_above` (map_object.rs lines 391-399); the
`unwrap` panics are modelled by `Option`.  No actor field is written. -/
def MapObject.fix_collision_above (m : MapObject)
    (info : CollisionInformation) (_t : ℕ) : Option (MapObject × ℚ) := do
  let o1 ← info.object1_position
  let o2 ← info.object2_position
  pure (m, (o1.y + o1.h + 1/10) - o2.y)

/-- `MapObject::fix_collision_bottom` (map_object.rs lines 405-413). -/
def MapObject.fix_collision_bottom (m : MapObject) (ds : Vector2f)
    (info : CollisionInformation) (_t : ℕ) : Option (MapObject × ℚ) := do
  let area := m.get_collision_size ds
  let o1 ← info.object1_position
  let o2 ← info.object2_position
  pure (m, o1.y - (o2.y + area.y) - 1)

/-- `MapObject::fix_collision_right` (map_object.rs lines 419-427). -/
def MapObject.fix_collision_right (m : MapObject) (ds : Vector2f)
    (info : CollisionInformation) (_t : ℕ) : Option (MapObject × ℚ) := do
  let area := m.get_collision_size ds
  let o1 ← info.object1_position
  let o2 ← info.object2_position
  pure (m, (o1.x - 2) - (o2.x + area.x))

/-- `MapObject::fix_collision_left` (map_object.rs lines 433-441). -/
def MapObject.fix_collision_left (m : MapObject)
    (info : CollisionInformation) (_t : ℕ) : Option (MapObject × ℚ) := do
  let o1 ← info.object1_position
  let o2 ← info.object2_position
  pure (m, (o1.x + o1.w + 1/2) - o2.x)

/-- `MapObject::fix_collision_vertical` (map_object.rs lines 446-459):
dispatches on the sign of `center_diff.y`. -/
def MapObject.fix_collision_vertical (m : MapObject) (ds : Vector2f)
    (info : CollisionInformation) (t : ℕ) : Option (MapObject × ℚ) := do
  let cd ← info.center_diff
  if cd.y < 0 then m.fix_collision_bottom ds info t
  else if cd.y > 0 then m.fix_collision_above info t
  else pure (m, 0)

/-- `MapObject::fix_collision_horizon` (map_object.rs lines 464-477). -/
def MapObject.fix_collision_horizon (m : MapObject) (ds : Vector2f)
    (info : CollisionInformation) (t : ℕ) : Option (MapObject × ℚ) := do
  let cd ← info.center_diff
  if cd.x < 0 then m.fix_collision_right ds info t
  else if cd.x > 0 then m.fix_collision_left info t
  else pure (m, 0)

/-- `MapObject::check_collision_with_character` (map_object.rs lines
492-509): AABB test of the two collision areas; on overlap the stored
difference vector is `(a2.x - a1.x, a2.y - a1.y)`, the difference of the
top-left corners. -/
def MapObject.check_collision_with_character (m : MapObject) (ds1 : Vector2f)
    (chara : MapObject) (ds2 : Vector2f) : CollisionInformation :=
  let a1 := m.get_collision_area ds1
  let a2 := chara.get_collision_area ds2
  if a1.overlaps a2 then
    CollisionInformation.new_collision a1 a2 ⟨a2.x - a1.x, a2.y - a1.y⟩
  else
    CollisionInformation.new_not_collision

end MapObjectRs

namespace ObjectRs

/-- `TextureSpeedInfo` from `src/object.rs` (lines 63-120): the older
variant that additionally stores the fall-start tick, gravity and
horizontal resistance. -/
structure TextureSpeedInfo where
  fall_begin : ℕ
  gravity_acc : ℚ
  horizon_resistance : ℚ
  speed : Vector2f
  speed_border : SpeedBorder
deriving DecidableEq, Repr

/-- `TextureSpeedInfo::fall_start` (object.rs line 83). -/
def TextureSpeedInfo.fall_start (s : TextureSpeedInfo) (t : ℕ) :
    TextureSpeedInfo :=
  { s with fall_begin := t }

/-- `TextureSpeedInfo::add_speed` (object.rs line 97): no clamping. -/
def TextureSpeedInfo.add_speed (s : TextureSpeedInfo) (v : Vector2f) :
    TextureSpeedInfo :=
  { s with speed := s.speed + v }

/-- `TextureSpeedInfo::set_speed` (object.rs line 101): no clamping. -/
def TextureSpeedInfo.set_speed (s : TextureSpeedInfo) (v : Vector2f) :
    TextureSpeedInfo :=
  { s with speed := v }

/-- `TextureSpeedInfo::set_speed_x` (object.rs line 105): clamps. -/
def TextureSpeedInfo.set_speed_x (s : TextureSpeedInfo) (v : ℚ) :
    TextureSpeedInfo :=
  { s with speed := ⟨s.speed_border.round_speed_x v, s.speed.y⟩ }

/-- `TextureSpeedInfo::set_speed_y` (object.rs line 109): clamps. -/
def TextureSpeedInfo.set_speed_y (s : TextureSpeedInfo) (v : ℚ) :
    TextureSpeedInfo :=
  { s with speed := ⟨s.speed.x, s.speed_border.round_speed_y v⟩ }

/-- `MapObject` from `src/object.rs` (lines 282-299).  Only the parts the
collision-resolution methods touch are kept: the speed info (mutated by
them) and the drawable's position bookkeeping. -/
structure MapObject where
  last_position : Vector2f
  object_position : Vector2f
  speed_info : TextureSpeedInfo
  map_position : MapObjectRs.TwoStepPoint
deriving DecidableEq, Repr

/-- `MapObject::undo_move` (object.rs lines 321-324). -/
def MapObject.undo_move (m : MapObject) : MapObject :=
  { m with object_position := m.last_position }

/-- `MapObject::fix_collision_above` (object.rs lines 346-353): starts the
fall clock, writes y-speed 1.0, then returns the offset with the
0.1 epsilon. -/
def MapObject.fix_collision_above (m : MapObject)
    (info : CollisionInformation) (t : ℕ) : Option (MapObject × ℚ) := do
  let m1 := { m with speed_info := (m.speed_info.fall_start t).set_speed_y 1 }
  let o1 ← info.object1_position
  let o2 ← info.object2_position
  pure (m1, (o1.y + o1.h + 1/10) - o2.y)

/-- `MapObject::fix_collision_bottom` (object.rs lines 359-366): starts the
fall clock; `area` is the drawing size `ds`. -/
def MapObject.fix_collision_bottom (m : MapObject) (ds : Vector2f)
    (info : CollisionInformation) (t : ℕ) : Option (MapObject × ℚ) := do
  let m1 := { m with speed_info := m.speed_info.fall_start t }
  let o1 ← info.object1_position
  let o2 ← info.object2_position
  pure (m1, o1.y - (o2.y + ds.y) - 1)

/-- `MapObject::fix_collision_right` (object.rs lines 372-378). -/
def MapObject.fix_collision_right (m : MapObject) (ds : Vector2f)
    (info : CollisionInformation) (_t : ℕ) : Option (MapObject × ℚ) := do
  let o1 ← info.object1_position
  let o2 ← info.object2_position
  pure (m, (o1.x - 1/10) - (o2.x + ds.x))

/-- `MapObject::fix_collision_left` (object.rs lines 384-391): zeroes the
x-speed. -/
def MapObject.fix_collision_left (m : MapObject)
    (info : CollisionInformation) (_t : ℕ) : Option (MapObject × ℚ) := do
  let m1 := { m with speed_info := m.speed_info.set_speed_x 0 }
  let o1 ← info.object1_position
  let o2 ← info.object2_position
  pure (m1, (o1.x + o1.w + 1/2) - o2.x)

/-- `MapObject::fix_collision_vertical` (object.rs lines 396-407): zeroes
the x-speed FIRST, then dispatches on the sign of `center_diff.y`. -/
def MapObject.fix_collision_vertical (m : MapObject) (ds : Vector2f)
    (info : CollisionInformation) (t : ℕ) : Option (MapObject × ℚ) := do
  let m1 := { m with speed_info := m.speed_info.set_speed_x 0 }
  let cd ← info.center_diff
  if cd.y < 0 then m1.fix_collision_bottom ds info t
  else if cd.y > 0 then m1.fix_collision_above info t
  else pure (m1, 0)

/-- `MapObject::fix_collision_horizon` (object.rs lines 412-421): chooses
the side by where `object2`'s right edge falls inside `object1`. -/
def MapObject.fix_collision_horizon (m : MapObject) (ds : Vector2f)
    (info : CollisionInformation) (t : ℕ) : Option (MapObject × ℚ) := do
  let o1 ← info.object1_position
  let o2 ← info.object2_position
  let right := o2.x + ds.x
  if right > o1.x ∧ right < o1.x + o1.w then
    m.fix_collision_right ds info t
  else
    m.fix_collision_left info t

end ObjectRs

/-- Modelled from the spec (§3, §4.5): `DelayEvent<Owner>` — a trigger tick
plus an action.  The defining module (`crate::scene::DelayEventList`) is
not under src/; only its call sites are.  The action type is a parameter:
the concrete owners below use a defunctionalized command type in place of
the boxed closure. -/
structure DelayEvent (α : Type) where
  run_time : ℕ
  func : α
deriving DecidableEq, Repr

namespace DelayEventList

variable {α : Type}

/-- Modelled from the spec (§4.5 "appends a DelayEvent to an unordered
list"): `DelayEventList::add`. -/
def add (l : List (DelayEvent α)) (e : DelayEvent α) : List (DelayEvent α) :=
  l ++ [e]

/-- Modelled from the spec: `DelayEventList::add_event(action, trigger_tick)`
wraps the action and appends. -/
def add_event (l : List (DelayEvent α)) (f : α) (t : ℕ) :
    List (DelayEvent α) :=
  add l ⟨t, f⟩

/-- Modelled from the spec: `DelayEventList::move_top` removes and returns
one event; the flush call sites (map_object.rs line 986) document it as
moving out the LAST element of the list. -/
def move_top (l : List (DelayEvent α)) :
    Option (DelayEvent α × List (DelayEvent α)) :=
  match l.getLast? with
  | none => none
  | some e => some (e, l.dropLast)

theorem move_top_eq_append {l : List (DelayEvent α)} {e : DelayEvent α}
    {r : List (DelayEvent α)} (h : move_top l = some (e, r)) :
    l = r ++ [e] := by
  unfold move_top at h
  cases hl : l.getLast? with
  | none => rw [hl] at h; exact absurd h (by simp)
  | some e' =>
    rw [hl] at h
    simp only [Option.some.injEq, Prod.mk.injEq] at h
    obtain ⟨he, hr⟩ := h
    subst hr
    have hmem : e ∈ l.getLast? := by rw [Option.mem_def, hl, he]
    exact (List.dropLast_append_getLast? e hmem).symm

theorem move_top_none {l : List (DelayEvent α)} (h : move_top l = none) :
    l = [] := by
  unfold move_top at h
  cases hl : l.getLast? with
  | none => exact List.getLast?_eq_none_iff.mp hl
  | some e' => rw [hl] at h; exact absurd h (by simp)

theorem move_top_append (l : List (DelayEvent α)) (e : DelayEvent α) :
    move_top (l ++ [e]) = some (e, l) := by
  unfold move_top
  simp

/-- Modelled from the spec (§4.5): the flush loop shared by
`CustomerCharacter::flush_delay_event` and
`SuzuMiniSightSilhouette::run_effect`, with the stored actions kept as
inert data (in the repository's usages no stored action modifies the event
list).  Returns the remaining list and the executed events in execution
order. -/
def flush (l : List (DelayEvent α)) (t : ℕ) :
    List (DelayEvent α) × List (DelayEvent α) :=
  match h : move_top l with
  | none => (l, [])
  | some (e, rest) =>
    if e.run_time > t then
      (add rest e, [])
    else
      let r := flush rest t
      (r.1, e :: r.2)
termination_by l.length
decreasing_by
  have := move_top_eq_append h
  subst this
  simp

end DelayEventList

/-- An operation on one owner's scheduler, for stating properties over
"every sequence of `add_event` and `flush` calls" (spec §4.5, §8): adding
an action (identified by a number) with a trigger tick, or flushing at a
tick.  Actions are inert identifiers here, matching the repository's
usages, where no stored action modifies the event list it lives in. -/
inductive SchedOp where
  | addEvent (ident : ℕ) (trigger : ℕ)
  | flushAt (t : ℕ)
deriving DecidableEq, Repr

/-- Scheduler state for a `SchedOp` run: the live `DelayEventList` plus the
log of executed events, each paired with the tick of the flush that ran
it. -/
structure SchedState where
  list : List (DelayEvent ℕ)
  log : List (DelayEvent ℕ × ℕ)
deriving DecidableEq, Repr

/-- One scheduler operation applied to a state: `addEvent` is
`DelayEventList::add_event`, `flushAt` is one call of the flush loop. -/
def SchedState.step (s : SchedState) (op : SchedOp) : SchedState :=
  match op with
  | .addEvent ident trigger =>
    { s with list := DelayEventList.add_event s.list ident trigger }
  | .flushAt t =>
    let r := DelayEventList.flush s.list t
    { list := r.1, log := s.log ++ r.2.map (fun e => (e, t)) }

/-- Run a sequence of scheduler operations from the empty scheduler. -/
def runOps (ops : List SchedOp) : SchedState :=
  ops.foldl SchedState.step ⟨[], []⟩

/-- The action identifiers added by a sequence of scheduler operations. -/
def addedIdents (ops : List SchedOp) : List ℕ :=
  ops.filterMap fun op =>
    match op with
    | .addEvent ident _ => some ident
    | .flushAt _ => none

/-- The delay events created by a sequence of scheduler operations. -/
def newEvents (ops : List SchedOp) : List (DelayEvent ℕ) :=
  ops.filterMap fun op =>
    match op with
    | .addEvent ident trigger => some ⟨trigger, ident⟩
    | .flushAt _ => none

/-- `CustomerCharacterStatus` (map_object.rs lines 824-830). -/
inductive CustomerCharacterStatus where
  | Ready
  | Moving
  | WaitOnClerk
  | WaitOnBookShelf
deriving DecidableEq, Repr

/-- `CustomerDestPoint` (map_object.rs lines 774-789): the destination tile
candidates (`numeric::Vector2u` modelled as a pair of naturals). -/
structure CustomerDestPoint where
  candidates : List (ℕ × ℕ)
deriving DecidableEq, Repr

/-- `CustomerDestPoint::random_select` (map_object.rs lines 785-788):
`rand::random::<usize>() % len` indexes the list; the random draw is
passed in as `r`.  With an empty candidate list the Rust remainder
`r % 0` panics, modelled as `none`. -/
def CustomerDestPoint.random_select (d : CustomerDestPoint) (r : ℕ) :
    Option (ℕ × ℕ) :=
  if d.candidates.length = 0 then none
  else d.candidates.get? (r % d.candidates.length)

/-- The single closure shape `CustomerCharacter` stores as a delay event
(map_object.rs lines 940-946), defunctionalized as a command
interpreted by `runCustomerAction` (spec §9 recommends exactly this
command-enum replacement for the boxed closures). -/
inductive CustomerAction where
  | enqueueRouteAndReady (maybeRoute : Option (List Vector2f))
deriving DecidableEq, Repr

/-- Modelled from the spec: the parts of
`crate::core::map_parser::StageObjectMap` (map_parser.rs is not under
src/) that the customer agent uses — the tile pixel size and grid bounds
with the map↔tile transforms of spec §4.1, and the route finder of §4.3
kept abstract as a function field (only whether it returns a route
matters to the claims). -/
structure StageObjectMap where
  tile_size : ℚ
  width : ℕ
  height : ℕ
  find_shortest_route : ℕ × ℕ → ℕ × ℕ → Option (List (ℕ × ℕ))

/-- Modelled from the spec (§4.1): `map_position_to_tile_position`
integer-divides by the tile size and returns `none` outside the grid
bounds. -/
def StageObjectMap.map_position_to_tile_position (m : StageObjectMap)
    (p : Vector2f) : Option (ℕ × ℕ) :=
  if m.tile_size ≤ 0 then none
  else
    let tx := ⌊p.x / m.tile_size⌋
    let ty := ⌊p.y / m.tile_size⌋
    if 0 ≤ tx ∧ tx < m.width ∧ 0 ≤ ty ∧ ty < m.height then
      some (tx.toNat, ty.toNat)
    else none

/-- Modelled from the spec (§4.1): `tile_position_to_map_position` is
`tile_xy * tile_size`. -/
def StageObjectMap.tile_position_to_map_position (m : StageObjectMap)
    (tp : ℕ × ℕ) : Vector2f :=
  ⟨tp.1 * m.tile_size, tp.2 * m.tile_size⟩

/-- `CustomerCharacter` (map_object.rs lines 832-853). -/
structure CustomerCharacter where
  event_list : List (DelayEvent CustomerAction)
  character : MapObjectRs.MapObject
  move_data : CustomerDestPoint
  move_queue : List Vector2f
  customer_status : CustomerCharacterStatus
  shopping_is_done : Bool
  current_goal : Vector2f
deriving DecidableEq, Repr

/-- Interpreter for the stored closure (map_object.rs lines 941-945): when
the captured route is `Some`, enqueue it and flip the status back to
`Ready`; otherwise do nothing. -/
def runCustomerAction (a : CustomerAction) (c : CustomerCharacter) :
    CustomerCharacter :=
  match a with
  | .enqueueRouteAndReady none => c
  | .enqueueRouteAndReady (some next_route) =>
    { c with
      move_queue := c.move_queue ++ next_route
      customer_status := .Ready }

theorem runCustomerAction_event_list (a : CustomerAction)
    (c : CustomerCharacter) :
    (runCustomerAction a c).event_list = c.event_list := by
  cases a with
  | enqueueRouteAndReady mr => cases mr <;> rfl

/-- `CustomerCharacter::flush_delay_event` (map_object.rs lines 985-997):
repeatedly move the top event out of the list; if its `run_time` has not
arrived put it back and stop, otherwise run its action on `self` and
continue. -/
def CustomerCharacter.flush_delay_event (c : CustomerCharacter) (t : ℕ) :
    CustomerCharacter :=
  match h : DelayEventList.move_top c.event_list with
  | none => c
  | some (event, rest) =>
    if event.run_time > t then
      { c with event_list := DelayEventList.add rest event }
    else
      CustomerCharacter.flush_delay_event
        (runCustomerAction event.func { c with event_list := rest }) t
termination_by c.event_list.length
decreasing_by
  have heq := DelayEventList.move_top_eq_append h
  simp [runCustomerAction_event_list, heq]

/-- `CustomerCharacter::update_current_destination` (map_object.rs lines
855-873): with an empty queue, translate the current collision-box
position to a tile, run the route finder, and convert the route's tiles
back to map positions. -/
def CustomerCharacter.update_current_destination (c : CustomerCharacter)
    (map : StageObjectMap) (ds : Vector2f) (dest : ℕ × ℕ) :
    Option (List Vector2f) :=
  if c.move_queue.isEmpty then
    match map.map_position_to_tile_position
        (c.character.get_map_position_with_collision_top_offset ds) with
    | some map_start_pos =>
      match map.find_shortest_route map_start_pos dest with
      | some route => some (route.map map.tile_position_to_map_position)
      | none => none
    | none => none
  else none

/-- `CustomerCharacter::override_move_effect` (map_object.rs lines
903-932): stores a speed of magnitude 1.4 toward `goal_point`, computed
with f32 `atan`/`cos`/`sin` (and updates the sprite's animation mode,
which this embedding does not track).  The trigonometric value is not
representable in exact arithmetic and is passed in as
`speedFn current goal_point`; the zero-offset shortcut is kept
explicit. -/
def CustomerCharacter.override_move_effect (c : CustomerCharacter)
    (ds : Vector2f) (speedFn : Vector2f → Vector2f → Vector2f)
    (goal_point : Vector2f) : CustomerCharacter :=
  let current := c.character.get_map_position_with_collision_top_offset ds
  let offset : Vector2f := ⟨goal_point.x - current.x, goal_point.y - current.y⟩
  let speed :=
    if offset.x = 0 ∧ offset.y = 0 then (⟨0, 0⟩ : Vector2f)
    else speedFn current goal_point
  { c with character :=
      { c.character with speed_info := c.character.speed_info.set_speed speed } }

/-- `CustomerCharacter::update_move_effect` (map_object.rs lines 934-959).
Empty queue: pick a random destination (`r` is the random draw; a panic of
`random_select` propagates as `none`), compute `maybe_next_route`, add one
delay event at `t + 100` capturing it, and set the status to
`WaitOnBookShelf`.  Non-empty queue: dequeue the next waypoint, steer
toward it and set the status to `Moving`. -/
def CustomerCharacter.update_move_effect (c : CustomerCharacter)
    (map : StageObjectMap) (ds : Vector2f) (r : ℕ)
    (speedFn : Vector2f → Vector2f → Vector2f) (t : ℕ) :
    Option CustomerCharacter :=
  if c.move_queue.isEmpty then do
    let dest ← c.move_data.random_select r
    let maybe_next_route := c.update_current_destination map ds dest
    some { c with
      event_list := DelayEventList.add_event c.event_list
        (.enqueueRouteAndReady maybe_next_route) (t + 100)
      customer_status := .WaitOnBookShelf }
  else
    match c.move_queue with
    | [] => some c
    | next_position :: rest =>
      let c1 := CustomerCharacter.override_move_effect
        { c with move_queue := rest } ds speedFn next_position
      some { c1 with
        current_goal := next_position
        customer_status := .Moving }

/-- `CustomerCharacter::reset_speed` (map_object.rs lines 974-978). -/
def CustomerCharacter.reset_speed (c : CustomerCharacter) :
    CustomerCharacter :=
  { c with character :=
      { c.character with
        speed_info := c.character.speed_info.set_speed ⟨0, 0⟩ } }

/-- `CustomerCharacter::is_goal_now` (map_object.rs lines 980-983):
`distance!(current, goal) < 1.5`; over exact arithmetic the equivalent
squared comparison is used, avoiding the square root. -/
def CustomerCharacter.is_goal_now (c : CustomerCharacter) (ds : Vector2f) :
    Bool :=
  let current := c.character.get_map_position_with_collision_top_offset ds
  decide ((current.x - c.current_goal.x) ^ 2 +
    (current.y - c.current_goal.y) ^ 2 < (3 / 2 : ℚ) ^ 2)

/-- `CustomerCharacter::try_update_move_effect` (map_object.rs lines
1020-1053): flush due delay events, then dispatch on the status.  In
`Moving`, on arrival (`is_goal_now`) snap the collision-box position to
the goal, set `Ready`, zero the speed, and — when shopping is not done —
compare the goal's tile (an `unwrap`, `none` on panic) with the counter
tile, switching to `WaitOnClerk` on a match. -/
def CustomerCharacter.try_update_move_effect (c : CustomerCharacter)
    (map : StageObjectMap) (ds : Vector2f) (counter : ℕ × ℕ) (r : ℕ)
    (speedFn : Vector2f → Vector2f → Vector2f) (t : ℕ) :
    Option CustomerCharacter :=
  let c1 := c.flush_delay_event t
  match c1.customer_status with
  | .Ready => c1.update_move_effect map ds r speedFn t
  | .Moving =>
    if c1.is_goal_now ds then
      let goal := c1.current_goal
      let c2 := { c1 with character :=
        c1.character.set_map_position_with_collision_top_offset ds goal }
      let c3 := { c2 with customer_status := .Ready }
      let c4 := c3.reset_speed
      if c4.shopping_is_done then some c4
      else
        match map.map_position_to_tile_position goal with
        | none => none
        | some tl =>
          if tl = counter then
            some { c4 with
              customer_status := .WaitOnClerk
              shopping_is_done := true }
          else some c4
    else some c1
  | .WaitOnClerk => some c1
  | .WaitOnBookShelf => some c1

/-- Claim C1, counterexample: with borders ±5, `set_speed` stores the full
vector (10,0) and `add_speed` accumulates to (10,0) — in both generations
of `TextureSpeedInfo` the stored x-component exceeds `positive_x`, so
neither method clamps against the `SpeedBorder`. -/
theorem claim_C1_counterexample :
    ¬ (((⟨⟨0, 0⟩, ⟨5, -5, 5, -5⟩⟩ :
        MapObjectRs.TextureSpeedInfo).set_speed ⟨10, 0⟩).speed.x ≤ (5 : ℚ)) ∧
    ¬ (((⟨⟨0, 0⟩, ⟨5, -5, 5, -5⟩⟩ :
        MapObjectRs.TextureSpeedInfo).add_speed ⟨10, 0⟩).speed.x ≤ (5 : ℚ)) ∧
    ¬ (((⟨0, 0, 0, ⟨0, 0⟩, ⟨5, -5, 5, -5⟩⟩ :
        ObjectRs.TextureSpeedInfo).set_speed ⟨10, 0⟩).speed.x ≤ (5 : ℚ)) := by
  refine ⟨?_, ?_, ?_⟩ <;>
    · simp only [MapObjectRs.TextureSpeedInfo.set_speed,
        MapObjectRs.TextureSpeedInfo.add_speed,
        ObjectRs.TextureSpeedInfo.set_speed, Vector2f.add_def]
      norm_num

/-- Claim C1, amended: only `set_speed_x` and `set_speed_y` clamp against
the `SpeedBorder` before storing (their result lies between the negative
and positive limit whenever the border is well-formed, and the other
component is untouched); `set_speed` stores the raw vector and `add_speed`
adds the raw vector, so those two writes can leave a stored component
outside the border. -/
theorem claim_C1_amended (s : MapObjectRs.TextureSpeedInfo)
    (s' : ObjectRs.TextureSpeedInfo) (v : Vector2f) (x y : ℚ)
    (hx : s.speed_border.negative_x ≤ s.speed_border.positive_x)
    (hy : s.speed_border.negative_y ≤ s.speed_border.positive_y) :
    (s.set_speed v).speed = v ∧
    (s.add_speed v).speed = s.speed + v ∧
    (s'.set_speed v).speed = v ∧
    (s'.add_speed v).speed = s'.speed + v ∧
    (s.speed_border.negative_x ≤ (s.set_speed_x x).speed.x ∧
      (s.set_speed_x x).speed.x ≤ s.speed_border.positive_x ∧
      (s.set_speed_x x).speed.y = s.speed.y) ∧
    (s.speed_border.negative_y ≤ (s.set_speed_y y).speed.y ∧
      (s.set_speed_y y).speed.y ≤ s.speed_border.positive_y ∧
      (s.set_speed_y y).speed.x = s.speed.x) := by
  refine ⟨rfl, rfl, rfl, rfl, ⟨?_, ?_, rfl⟩, ⟨?_, ?_, rfl⟩⟩ <;>
    · simp only [MapObjectRs.TextureSpeedInfo.set_speed_x,
        MapObjectRs.TextureSpeedInfo.set_speed_y,
        SpeedBorder.round_speed_x, SpeedBorder.round_speed_y]
      split_ifs <;> linarith

/-- Claim C1, witness: the amended statement at a concrete speed info with
borders ±5. -/
theorem claim_C1_witness :
    (((⟨⟨1, 2⟩, ⟨5, -5, 5, -5⟩⟩ :
      MapObjectRs.TextureSpeedInfo).set_speed_x 100).speed.x ≤ 5) ∧
    (((⟨⟨1, 2⟩, ⟨5, -5, 5, -5⟩⟩ :
      MapObjectRs.TextureSpeedInfo).set_speed ⟨3, 4⟩).speed = ⟨3, 4⟩) := by
  have h := claim_C1_amended ⟨⟨1, 2⟩, ⟨5, -5, 5, -5⟩⟩
    ⟨0, 0, 0, ⟨0, 0⟩, ⟨5, -5, 5, -5⟩⟩ ⟨3, 4⟩ 100 (-100)
    (by norm_num) (by norm_num)
  exact ⟨h.2.2.2.2.1.2.1, h.1⟩

/-- Claim C2, counterexample: `src/object.rs`'s `fix_collision_vertical`
is not side-effect free — on a collided `CollisionInformation` with
`center_diff.y > 0` it zeroes the stored x-speed, sets the fall-start
tick to the current tick and writes y-speed 1, before returning the
offset 5.1. -/
theorem claim_C2_counterexample :
    (ObjectRs.MapObject.fix_collision_vertical
        ⟨⟨0, 0⟩, ⟨0, 0⟩, ⟨0, 1, 1, ⟨3, 3⟩, ⟨5, -5, 5, -5⟩⟩, ⟨⟨0, 0⟩, ⟨0, 0⟩⟩⟩
        ⟨10, 10⟩
        (CollisionInformation.new_collision ⟨0, 0, 10, 10⟩ ⟨0, 5, 10, 10⟩ ⟨0, 5⟩)
        7).map
      (fun p => (p.1.speed_info.speed, p.1.speed_info.fall_begin, p.2)) =
      some (⟨0, 1⟩, 7, 51 / 10) ∧
    ((⟨0, 1⟩ : Vector2f) ≠ ⟨3, 3⟩) ∧ ((7 : ℕ) ≠ 0) := by
  refine ⟨?_, by norm_num [Vector2f.mk.injEq], by norm_num⟩
  norm_num [ObjectRs.MapObject.fix_collision_vertical,
    ObjectRs.MapObject.fix_collision_above,
    ObjectRs.MapObject.fix_collision_bottom,
    ObjectRs.TextureSpeedInfo.set_speed_x,
    ObjectRs.TextureSpeedInfo.set_speed_y,
    ObjectRs.TextureSpeedInfo.fall_start,
    CollisionInformation.new_collision,
    SpeedBorder.round_speed_x, SpeedBorder.round_speed_y]

/-- Claim C2, amended: the `map_object.rs` versions of
`fix_collision_vertical` / `fix_collision_horizon` are pure — whenever
they return, the actor state is returned unchanged next to the offset;
the `object.rs` versions mutate the speed state: `fix_collision_vertical`
always overwrites the x-speed with the clamped 0, and in its two
colliding branches also sets the fall-start tick to the current tick. -/
theorem claim_C2_amended :
    (∀ (m : MapObjectRs.MapObject) (ds : Vector2f)
        (info : CollisionInformation) (t : ℕ) (p : MapObjectRs.MapObject × ℚ),
      m.fix_collision_vertical ds info t = some p → p.1 = m) ∧
    (∀ (m : MapObjectRs.MapObject) (ds : Vector2f)
        (info : CollisionInformation) (t : ℕ) (p : MapObjectRs.MapObject × ℚ),
      m.fix_collision_horizon ds info t = some p → p.1 = m) ∧
    (∀ (m : ObjectRs.MapObject) (ds : Vector2f)
        (info : CollisionInformation) (t : ℕ) (p : ObjectRs.MapObject × ℚ),
      m.fix_collision_vertical ds info t = some p →
        p.1.speed_info.speed.x = m.speed_info.speed_border.round_speed_x 0) ∧
    (∀ (m : ObjectRs.MapObject) (ds : Vector2f)
        (info : CollisionInformation) (t : ℕ) (p : ObjectRs.MapObject × ℚ)
        (cd : Vector2f),
      info.center_diff = some cd → cd.y ≠ 0 →
      m.fix_collision_vertical ds info t = some p →
        p.1.speed_info.fall_begin = t) := by
  refine ⟨?_, ?_, ?_, ?_⟩
  · intro m ds info t p h
    rcases hcd : info.center_diff with _ | cd <;>
      rcases ho1 : info.object1_position with _ | o1 <;>
      rcases ho2 : info.object2_position with _ | o2 <;>
      simp only [MapObjectRs.MapObject.fix_collision_vertical,
        MapObjectRs.MapObject.fix_collision_bottom,
        MapObjectRs.MapObject.fix_collision_above, hcd, ho1, ho2,
        Option.bind_eq_bind, Option.some_bind, Option.none_bind] at h <;>
      first
        | (split_ifs at h <;>
            (first
              | (simp only [Option.pure_def, Option.some.injEq] at h; subst h; simp; done)
              | simp_all))
        | (simp only [Option.pure_def, Option.some.injEq] at h; subst h; simp; done)
        | simp_all
  · intro m ds info t p h
    rcases hcd : info.center_diff with _ | cd <;>
      rcases ho1 : info.object1_position with _ | o1 <;>
      rcases ho2 : info.object2_position with _ | o2 <;>
      simp only [MapObjectRs.MapObject.fix_collision_horizon,
        MapObjectRs.MapObject.fix_collision_right,
        MapObjectRs.MapObject.fix_collision_left, hcd, ho1, ho2,
        Option.bind_eq_bind, Option.some_bind, Option.none_bind] at h <;>
      first
        | (split_ifs at h <;>
            (first
              | (simp only [Option.pure_def, Option.some.injEq] at h; subst h; simp; done)
              | simp_all))
        | (simp only [Option.pure_def, Option.some.injEq] at h; subst h; simp; done)
        | simp_all
  · intro m ds info t p h
    rcases hcd : info.center_diff with _ | cd <;>
      rcases ho1 : info.object1_position with _ | o1 <;>
      rcases ho2 : info.object2_position with _ | o2 <;>
      simp only [ObjectRs.MapObject.fix_collision_vertical,
        ObjectRs.MapObject.fix_collision_bottom,
        ObjectRs.MapObject.fix_collision_above,
        ObjectRs.TextureSpeedInfo.fall_start,
        ObjectRs.TextureSpeedInfo.set_speed_y,
        ObjectRs.TextureSpeedInfo.set_speed_x, hcd, ho1, ho2,
        Option.bind_eq_bind, Option.some_bind, Option.none_bind] at h <;>
      first
        | (split_ifs at h <;>
            (first
              | (simp only [Option.pure_def, Option.some.injEq] at h; subst h; simp; done)
              | simp_all))
        | (simp only [Option.pure_def, Option.some.injEq] at h; subst h; simp; done)
        | simp_all
  · intro m ds info t p cd hcd hy h
    rcases ho1 : info.object1_position with _ | o1 <;>
      rcases ho2 : info.object2_position with _ | o2 <;>
      simp only [ObjectRs.MapObject.fix_collision_vertical,
        ObjectRs.MapObject.fix_collision_bottom,
        ObjectRs.MapObject.fix_collision_above,
        ObjectRs.TextureSpeedInfo.fall_start,
        ObjectRs.TextureSpeedInfo.set_speed_y,
        ObjectRs.TextureSpeedInfo.set_speed_x, hcd, ho1, ho2,
        Option.bind_eq_bind, Option.some_bind, Option.none_bind] at h <;>
      split_ifs at h with h1 h2 <;>
      first
        | (simp only [Option.pure_def, Option.some.injEq] at h; subst h; simp; done)
        | exact absurd (by linarith : cd.y = 0) hy
        | simp_all

/-- Claim C2, witness: on a concrete collided input the `map_object.rs`
`fix_collision_vertical` returns the actor unchanged. -/
theorem claim_C2_witness :
    ((MapObjectRs.MapObject.new ⟨0, 0⟩ ⟨⟨0, 0⟩, ⟨5, -5, 5, -5⟩⟩ ⟨0, 0⟩
        ⟨0, 0, 1, 1⟩), (51 / 10 : ℚ)).1 =
      MapObjectRs.MapObject.new ⟨0, 0⟩ ⟨⟨0, 0⟩, ⟨5, -5, 5, -5⟩⟩ ⟨0, 0⟩
        ⟨0, 0, 1, 1⟩ := by
  refine claim_C2_amended.1
    (MapObjectRs.MapObject.new ⟨0, 0⟩ ⟨⟨0, 0⟩, ⟨5, -5, 5, -5⟩⟩ ⟨0, 0⟩
      ⟨0, 0, 1, 1⟩) ⟨10, 10⟩
    (CollisionInformation.new_collision ⟨0, 0, 10, 10⟩ ⟨0, 5, 10, 10⟩ ⟨0, 5⟩)
    3 _ ?_
  norm_num [MapObjectRs.MapObject.fix_collision_vertical,
    MapObjectRs.MapObject.fix_collision_above,
    MapObjectRs.MapObject.fix_collision_bottom,
    MapObjectRs.MapObject.new, MapObjectRs.MapObject.get_collision_size,
    CollisionInformation.new_collision]

/-- Claim C3, counterexample: two overlapping collision boxes
(0,0,10,10) and (5,5,2,2) of different sizes — the query does report a
collision, but the stored `center_diff` is (5,5), the difference of the
TOP-LEFT corners, while the difference of the CENTERS is (1,1). -/
theorem claim_C3_counterexample :
    (MapObjectRs.MapObject.check_collision_with_character
      (MapObjectRs.MapObject.new ⟨0, 0⟩ ⟨⟨0, 0⟩, ⟨5, -5, 5, -5⟩⟩ ⟨0, 0⟩
        ⟨0, 0, 1, 1⟩) ⟨10, 10⟩
      (MapObjectRs.MapObject.new ⟨5, 5⟩ ⟨⟨0, 0⟩, ⟨5, -5, 5, -5⟩⟩ ⟨0, 0⟩
        ⟨0, 0, 1, 1⟩) ⟨2, 2⟩).collision = true ∧
    (MapObjectRs.MapObject.check_collision_with_character
      (MapObjectRs.MapObject.new ⟨0, 0⟩ ⟨⟨0, 0⟩, ⟨5, -5, 5, -5⟩⟩ ⟨0, 0⟩
        ⟨0, 0, 1, 1⟩) ⟨10, 10⟩
      (MapObjectRs.MapObject.new ⟨5, 5⟩ ⟨⟨0, 0⟩, ⟨5, -5, 5, -5⟩⟩ ⟨0, 0⟩
        ⟨0, 0, 1, 1⟩) ⟨2, 2⟩).center_diff = some ⟨5, 5⟩ ∧
    Rect.center ⟨5, 5, 2, 2⟩ - Rect.center ⟨0, 0, 10, 10⟩ = (⟨1, 1⟩ : Vector2f) ∧
    ((⟨5, 5⟩ : Vector2f) ≠ ⟨1, 1⟩) := by
  refine ⟨?_, ?_, ?_, by norm_num [Vector2f.mk.injEq]⟩ <;>
    norm_num [MapObjectRs.MapObject.check_collision_with_character,
      MapObjectRs.MapObject.new, MapObjectRs.MapObject.get_collision_area,
      MapObjectRs.MapObject.get_collision_size,
      MapObjectRs.MapObject.get_collision_top_offset, Rect.overlaps,
      Rect.center, CollisionInformation.new_collision,
      CollisionInformation.new_not_collision, Vector2f.mk.injEq]

/-- Claim C3, amended: when the two collision areas overlap, the query
reports a collision carrying both boxes and a difference vector equal to
the difference of the boxes' TOP-LEFT corners (`a2 - a1` componentwise on
x,y); this equals the difference of the centers exactly when the two boxes
have the same width and height.  When the areas do not overlap, no
collision is reported. -/
theorem claim_C3_amended (m chara : MapObjectRs.MapObject)
    (ds1 ds2 : Vector2f) :
    ((m.get_collision_area ds1).overlaps (chara.get_collision_area ds2) =
        true →
      m.check_collision_with_character ds1 chara ds2 =
        CollisionInformation.new_collision (m.get_collision_area ds1)
          (chara.get_collision_area ds2)
          ⟨(chara.get_collision_area ds2).x - (m.get_collision_area ds1).x,
           (chara.get_collision_area ds2).y - (m.get_collision_area ds1).y⟩) ∧
    ((m.get_collision_area ds1).overlaps (chara.get_collision_area ds2) =
        false →
      m.check_collision_with_character ds1 chara ds2 =
        CollisionInformation.new_not_collision) ∧
    ((m.get_collision_area ds1).w = (chara.get_collision_area ds2).w →
     (m.get_collision_area ds1).h = (chara.get_collision_area ds2).h →
      (⟨(chara.get_collision_area ds2).x - (m.get_collision_area ds1).x,
        (chara.get_collision_area ds2).y - (m.get_collision_area ds1).y⟩ :
        Vector2f) =
        (chara.get_collision_area ds2).center -
          (m.get_collision_area ds1).center) := by
  refine ⟨?_, ?_, ?_⟩
  · intro hov
    simp [MapObjectRs.MapObject.check_collision_with_character, hov]
  · intro hov
    simp [MapObjectRs.MapObject.check_collision_with_character, hov]
  · intro hw hh
    simp only [Rect.center, Vector2f.sub_def, Vector2f.mk.injEq]
    constructor <;> linarith

/-- Claim C3, witness: the amended overlap case at the concrete boxes of
the counterexample. -/
theorem claim_C3_witness :
    MapObjectRs.MapObject.check_collision_with_character
      (MapObjectRs.MapObject.new ⟨0, 0⟩ ⟨⟨0, 0⟩, ⟨5, -5, 5, -5⟩⟩ ⟨0, 0⟩
        ⟨0, 0, 1, 1⟩) ⟨10, 10⟩
      (MapObjectRs.MapObject.new ⟨5, 5⟩ ⟨⟨0, 0⟩, ⟨5, -5, 5, -5⟩⟩ ⟨0, 0⟩
        ⟨0, 0, 1, 1⟩) ⟨2, 2⟩ =
      CollisionInformation.new_collision
        (MapObjectRs.MapObject.get_collision_area
          (MapObjectRs.MapObject.new ⟨0, 0⟩ ⟨⟨0, 0⟩, ⟨5, -5, 5, -5⟩⟩ ⟨0, 0⟩
            ⟨0, 0, 1, 1⟩) ⟨10, 10⟩)
        (MapObjectRs.MapObject.get_collision_area
          (MapObjectRs.MapObject.new ⟨5, 5⟩ ⟨⟨0, 0⟩, ⟨5, -5, 5, -5⟩⟩ ⟨0, 0⟩
            ⟨0, 0, 1, 1⟩) ⟨2, 2⟩)
        ⟨(MapObjectRs.MapObject.get_collision_area
            (MapObjectRs.MapObject.new ⟨5, 5⟩ ⟨⟨0, 0⟩, ⟨5, -5, 5, -5⟩⟩ ⟨0, 0⟩
              ⟨0, 0, 1, 1⟩) ⟨2, 2⟩).x -
          (MapObjectRs.MapObject.get_collision_area
            (MapObjectRs.MapObject.new ⟨0, 0⟩ ⟨⟨0, 0⟩, ⟨5, -5, 5, -5⟩⟩ ⟨0, 0⟩
              ⟨0, 0, 1, 1⟩) ⟨10, 10⟩).x,
         (MapObjectRs.MapObject.get_collision_area
            (MapObjectRs.MapObject.new ⟨5, 5⟩ ⟨⟨0, 0⟩, ⟨5, -5, 5, -5⟩⟩ ⟨0, 0⟩
              ⟨0, 0, 1, 1⟩) ⟨2, 2⟩).y -
          (MapObjectRs.MapObject.get_collision_area
            (MapObjectRs.MapObject.new ⟨0, 0⟩ ⟨⟨0, 0⟩, ⟨5, -5, 5, -5⟩⟩ ⟨0, 0⟩
              ⟨0, 0, 1, 1⟩) ⟨10, 10⟩).y⟩ := by
  refine (claim_C3_amended _ _ _ _).1 ?_
  norm_num [MapObjectRs.MapObject.new, MapObjectRs.MapObject.get_collision_area,
    MapObjectRs.MapObject.get_collision_size,
    MapObjectRs.MapObject.get_collision_top_offset, Rect.overlaps]

/-- Claim C6, counterexample: starting from a fresh object at map position
(0,0), two tentative moves (5,0) then (3,0) put the two-step point at
previous (5,0) / current (8,0); `undo_move` leaves the two-step point's
`current` at (8,0) instead of restoring the pre-tick value (5,0) — it only
rewrites the drawable's screen position to the construction-time value. -/
theorem claim_C6_counterexample :
    ((((MapObjectRs.MapObject.new ⟨0, 0⟩ ⟨⟨0, 0⟩, ⟨5, -5, 5, -5⟩⟩ ⟨0, 0⟩
        ⟨0, 0, 1, 1⟩).move_map ⟨5, 0⟩).move_map ⟨3, 0⟩).undo_move).map_position.current =
      ⟨8, 0⟩ ∧
    ((((MapObjectRs.MapObject.new ⟨0, 0⟩ ⟨⟨0, 0⟩, ⟨5, -5, 5, -5⟩⟩ ⟨0, 0⟩
        ⟨0, 0, 1, 1⟩).move_map ⟨5, 0⟩).move_map ⟨3, 0⟩)).map_position.previous =
      ⟨5, 0⟩ ∧
    ((⟨8, 0⟩ : Vector2f) ≠ ⟨5, 0⟩) := by
  refine ⟨?_, ?_, by norm_num [Vector2f.mk.injEq]⟩ <;>
    norm_num [MapObjectRs.MapObject.new, MapObjectRs.MapObject.move_map,
      MapObjectRs.MapObject.undo_move, MapObjectRs.MapObject.get_last_position,
      MapObjectRs.TwoStepPoint.move_diff, Vector2f.mk.injEq]

/-- Claim C6, amended: `undo_move` writes `last_position` (the drawable's
screen position captured at construction — no operation of the embedding
ever updates it) into the drawable's position; it leaves the two-step map
point, the speed info and every other field unchanged, so the tentative
map displacement is NOT discarded. -/
theorem claim_C6_amended (m : MapObjectRs.MapObject) (v p pos : Vector2f)
    (ds : Vector2f) (camera : Rect) :
    m.undo_move.object_position = m.last_position ∧
    m.undo_move.map_position = m.map_position ∧
    m.undo_move.speed_info = m.speed_info ∧
    m.undo_move.last_position = m.last_position ∧
    (m.move_map v).last_position = m.last_position ∧
    (m.set_map_position_with_collision_top_offset ds p).last_position =
      m.last_position ∧
    (m.set_map_position pos).last_position = m.last_position ∧
    (m.update_display_position camera).last_position = m.last_position := by
  exact ⟨rfl, rfl, rfl, rfl, rfl, rfl, rfl, rfl⟩

/-- Claim C7, counterexample: collided boxes box1 = (0,0,10,10),
box2 = (0,5,10,10), `center_diff.y = 5 > 0`: the code returns 5.1 — the
penetration depth 5 plus a 0.1 epsilon — whereas the claim's "same
1-pixel epsilon" correction would be 6 (or −6); so the two directions do
NOT use the same epsilon. -/
theorem claim_C7_counterexample :
    (MapObjectRs.MapObject.fix_collision_vertical
      (MapObjectRs.MapObject.new ⟨0, 0⟩ ⟨⟨0, 0⟩, ⟨5, -5, 5, -5⟩⟩ ⟨0, 0⟩
        ⟨0, 0, 1, 1⟩) ⟨10, 10⟩
      (CollisionInformation.new_collision ⟨0, 0, 10, 10⟩ ⟨0, 5, 10, 10⟩
        ⟨0, 5⟩) 3).map Prod.snd = some (51 / 10) ∧
    ¬ ((51 / 10 : ℚ) = 6 ∨ (51 / 10 : ℚ) = -6) := by
  constructor
  · norm_num [MapObjectRs.MapObject.fix_collision_vertical,
      MapObjectRs.MapObject.fix_collision_above,
      MapObjectRs.MapObject.fix_collision_bottom,
      MapObjectRs.MapObject.new, MapObjectRs.MapObject.get_collision_size,
      CollisionInformation.new_collision]
  · norm_num

/-- Claim C7, amended: with collided boxes `o1`, `o2` and the actor's
collision height equal to `o2.h`, `fix_collision_vertical` returns:
for `center_diff.y < 0` the NEGATIVE (push-up) offset
`-((o2.y + o2.h - o1.y) + 1)` — penetration depth plus a 1-pixel epsilon;
for `center_diff.y > 0` the POSITIVE (push-down) offset
`(o1.y + o1.h - o2.y) + 0.1` — penetration depth plus a 0.1 epsilon (not
1); and 0 when `center_diff.y = 0`.  The state is returned unchanged. -/
theorem claim_C7_amended (m : MapObjectRs.MapObject) (ds : Vector2f)
    (info : CollisionInformation) (t : ℕ) (o1 o2 : Rect) (cd : Vector2f)
    (h1 : info.object1_position = some o1)
    (h2 : info.object2_position = some o2)
    (hcd : info.center_diff = some cd)
    (harea : (m.get_collision_size ds).y = o2.h) :
    (cd.y < 0 →
      m.fix_collision_vertical ds info t =
        some (m, -((o2.y + o2.h - o1.y) + 1))) ∧
    (cd.y > 0 →
      m.fix_collision_vertical ds info t =
        some (m, (o1.y + o1.h - o2.y) + 1 / 10)) ∧
    (cd.y = 0 →
      m.fix_collision_vertical ds info t = some (m, 0)) := by
  refine ⟨?_, ?_, ?_⟩ <;> intro hy <;>
    simp only [MapObjectRs.MapObject.fix_collision_vertical,
      MapObjectRs.MapObject.fix_collision_bottom,
      MapObjectRs.MapObject.fix_collision_above, h1, h2, hcd,
      Option.bind_eq_bind, Option.some_bind, Option.pure_def]
  · rw [if_pos hy]
    simp only [Option.some_bind, Option.some.injEq, Prod.mk.injEq]
    refine ⟨trivial, ?_⟩
    rw [harea]; ring
  · rw [if_neg (by linarith), if_pos hy]
    simp only [Option.some_bind, Option.some.injEq, Prod.mk.injEq]
    exact ⟨trivial, by ring⟩
  · rw [if_neg (by simp [hy]), if_neg (by simp [hy])]

/-- Claim C7, witness: the push-up branch at concrete collided boxes
box1 = (0,10,10,10), box2 = (0,5,10,10) with `center_diff.y = -5`. -/
theorem claim_C7_witness :
    MapObjectRs.MapObject.fix_collision_vertical
      (MapObjectRs.MapObject.new ⟨0, 0⟩ ⟨⟨0, 0⟩, ⟨5, -5, 5, -5⟩⟩ ⟨0, 0⟩
        ⟨0, 0, 1, 1⟩) ⟨10, 10⟩
      (CollisionInformation.new_collision ⟨0, 10, 10, 10⟩ ⟨0, 5, 10, 10⟩
        ⟨0, -5⟩) 3 =
      some (MapObjectRs.MapObject.new ⟨0, 0⟩ ⟨⟨0, 0⟩, ⟨5, -5, 5, -5⟩⟩ ⟨0, 0⟩
        ⟨0, 0, 1, 1⟩, -((((5 : ℚ)) + 10 - 10) + 1)) := by
  refine (claim_C7_amended _ _ _ _ ⟨0, 10, 10, 10⟩ ⟨0, 5, 10, 10⟩ ⟨0, -5⟩
    rfl rfl rfl ?_).1 (by norm_num)
  norm_num [MapObjectRs.MapObject.new, MapObjectRs.MapObject.get_collision_size]

/-- Claim C10: `random_select` with a non-empty candidate list returns one
of the listed candidates (the random draw indexes the list modulo its
length); with an empty candidate list the Rust code divides by zero
(panics), modelled as `none`. -/
theorem claim_C10_random_select (d : CustomerDestPoint) (r : ℕ) :
    (d.candidates = [] → d.random_select r = none) ∧
    (d.candidates ≠ [] →
      ∃ c, d.random_select r = some c ∧ c ∈ d.candidates) := by
  constructor
  · intro h
    simp [CustomerDestPoint.random_select, h]
  · intro h
    have hlen : 0 < d.candidates.length := List.length_pos.mpr h
    have hlt : r % d.candidates.length < d.candidates.length :=
      Nat.mod_lt _ hlen
    unfold CustomerDestPoint.random_select
    rw [if_neg (by omega)]
    cases hg : d.candidates.get? (r % d.candidates.length) with
    | none =>
      have := List.get?_eq_none.mp hg
      omega
    | some c => exact ⟨c, rfl, List.get?_mem hg⟩

/-- Claim C10, witness: the empty-candidates panic case (derived from the
claim's theorem) and a concrete selection from a two-element list. -/
theorem claim_C10_witness :
    CustomerDestPoint.random_select ⟨[]⟩ 5 = none ∧
    CustomerDestPoint.random_select ⟨[(1, 2), (3, 4)]⟩ 7 = some (3, 4) := by
  refine ⟨(claim_C10_random_select ⟨[]⟩ 5).1 rfl, ?_⟩
  decide

namespace DelayEventList
variable {α : Type}
theorem flush_nil (t : ℕ) : flush ([] : List (DelayEvent α)) t = ([], []) := by
  rw [flush]
  rfl

theorem flush_append_gt (l : List (DelayEvent α)) (e : DelayEvent α) (t : ℕ)
    (h : e.run_time > t) : flush (l ++ [e]) t = (l ++ [e], []) := by
  rw [flush]
  split
  next heq => simp [move_top_append] at heq
  next e' rest heq =>
    rw [move_top_append] at heq
    simp only [Option.some.injEq, Prod.mk.injEq] at heq
    obtain ⟨he, hr⟩ := heq
    subst he; subst hr
    rw [if_pos h]
    simp [add]

theorem flush_append_le (l : List (DelayEvent α)) (e : DelayEvent α) (t : ℕ)
    (h : ¬ e.run_time > t) :
    flush (l ++ [e]) t = ((flush l t).1, e :: (flush l t).2) := by
  conv_lhs => rw [flush]
  split
  next heq => simp [move_top_append] at heq
  next e' rest heq =>
    rw [move_top_append] at heq
    simp only [Option.some.injEq, Prod.mk.injEq] at heq
    obtain ⟨he, hr⟩ := heq
    subst he; subst hr
    rw [if_neg h]
theorem flush_perm (l : List (DelayEvent α)) (t : ℕ) :
    ((flush l t).1 ++ (flush l t).2).Perm l := by
  induction l using List.reverseRecOn with
  | nil => simp [flush_nil]
  | append_singleton l e ih =>
    by_cases h : e.run_time > t
    · rw [flush_append_gt l e t h]
      simp
    · rw [flush_append_le l e t h]
      refine (List.perm_middle).trans ?_
      exact (ih.cons e).trans (List.perm_append_singleton e l).symm

theorem flush_exec_le (l : List (DelayEvent α)) (t : ℕ) :
    ∀ e' ∈ (flush l t).2, e'.run_time ≤ t := by
  induction l using List.reverseRecOn with
  | nil => simp [flush_nil]
  | append_singleton l e ih =>
    by_cases h : e.run_time > t
    · rw [flush_append_gt l e t h]
      simp
    · rw [flush_append_le l e t h]
      intro e' he'
      rcases List.mem_cons.mp he' with rfl | hmem
      · omega
      · exact ih e' hmem

theorem flush_all_due (l : List (DelayEvent α)) (t : ℕ) :
    (∀ e ∈ l, e.run_time ≤ t) → (flush l t).1 = [] := by
  induction l using List.reverseRecOn with
  | nil => intro _; simp [flush_nil]
  | append_singleton l e ih =>
    intro hall
    have he : ¬ e.run_time > t := by
      have := hall e (by simp)
      omega
    rw [flush_append_le l e t he]
    exact ih fun e' h' => hall e' (by simp [h'])

end DelayEventList

theorem newEvents_map_func (ops : List SchedOp) :
    (newEvents ops).map DelayEvent.func = addedIdents ops := by
  induction ops with
  | nil => rfl
  | cons op ops ih =>
    cases op <;> simp [newEvents, addedIdents] at ih ⊢ <;>
      simpa [newEvents, addedIdents] using ih

theorem runOpsFrom_perm (ops : List SchedOp) (s : SchedState) :
    ((ops.foldl SchedState.step s).list ++
      (ops.foldl SchedState.step s).log.map Prod.fst).Perm
      ((s.list ++ s.log.map Prod.fst) ++ newEvents ops) := by
  induction ops generalizing s with
  | nil => simp [newEvents]
  | cons op ops ih =>
    simp only [List.foldl_cons]
    refine (ih (s.step op)).trans ?_
    cases op with
    | addEvent ident trigger =>
      simp only [SchedState.step, DelayEventList.add_event, DelayEventList.add,
        newEvents, List.filterMap_cons]
      rw [← Multiset.coe_eq_coe]
      simp only [← Multiset.coe_add, ← Multiset.cons_coe, ← Multiset.singleton_add]
      abel
    | flushAt t =>
      simp only [SchedState.step, newEvents, List.filterMap_cons,
        List.map_append, List.map_map]
      have hmap : List.map (Prod.fst ∘ fun e => (e, t))
          (DelayEventList.flush s.list t).2 =
          (DelayEventList.flush s.list t).2 := by
        simp only [Function.comp_def, List.map_id']
      rw [hmap]
      have hp : ((DelayEventList.flush s.list t).1 : Multiset (DelayEvent ℕ)) +
          ((DelayEventList.flush s.list t).2 : Multiset (DelayEvent ℕ)) =
          (s.list : Multiset (DelayEvent ℕ)) := by
        have h2 := Multiset.coe_eq_coe.mpr (DelayEventList.flush_perm s.list t)
        rw [← Multiset.coe_add] at h2
        exact h2
      rw [← Multiset.coe_eq_coe]
      simp only [← Multiset.coe_add]
      rw [← hp]
      abel

theorem runOpsFrom_log_le (ops : List SchedOp) (s : SchedState)
    (hs : ∀ p ∈ s.log, p.1.run_time ≤ p.2) :
    ∀ p ∈ (ops.foldl SchedState.step s).log, p.1.run_time ≤ p.2 := by
  induction ops generalizing s with
  | nil => exact hs
  | cons op ops ih =>
    simp only [List.foldl_cons]
    refine ih (s.step op) ?_
    cases op with
    | addEvent ident trigger => exact hs
    | flushAt t =>
      intro p hp
      simp only [SchedState.step, List.mem_append] at hp
      rcases hp with hp | hp
      · exact hs p hp
      · obtain ⟨e, he, rfl⟩ := List.mem_map.mp hp
        exact DelayEventList.flush_exec_le s.list t e he

/-- Claim C4, amended: over every sequence of `add_event`/`flush` calls
with distinct action identifiers, each added action executes at most once,
and never during a flush whose tick is below the action's `run_time`; and
once a flush is called at a tick `T` that is ≥ the `run_time` of EVERY
event still in the list, every added action has executed exactly once (the
action's own trigger alone does not suffice, because flushing stops at the
first not-yet-due event — see the counterexample). -/
theorem claim_C4_amended (ops : List SchedOp) (T : ℕ)
    (hnodup : (addedIdents ops).Nodup) :
    ((runOps ops).log.map (fun p => p.1.func)).Nodup ∧
    (∀ p ∈ (runOps ops).log, p.1.run_time ≤ p.2) ∧
    ((∀ e ∈ (runOps ops).list, e.run_time ≤ T) →
      ((runOps (ops ++ [SchedOp.flushAt T])).log.map
        (fun p => p.1.func)).Perm (addedIdents ops)) := by
  have hperm : ((runOps ops).list ++
      (runOps ops).log.map Prod.fst).Perm (newEvents ops) :=
    runOpsFrom_perm ops ⟨[], []⟩
  refine ⟨?_, ?_, ?_⟩
  · have hN : ((newEvents ops).map DelayEvent.func).Nodup := by
      rw [newEvents_map_func]; exact hnodup
    have hmapped := hperm.map DelayEvent.func
    have hnd : (((runOps ops).list ++
        (runOps ops).log.map Prod.fst).map DelayEvent.func).Nodup :=
      hmapped.nodup_iff.mpr hN
    rw [List.map_append] at hnd
    have := (List.nodup_append.mp hnd).2.1
    simpa [List.map_map, Function.comp_def] using this
  · exact runOpsFrom_log_le ops ⟨[], []⟩ (by simp)
  · intro hT
    have hstep : runOps (ops ++ [SchedOp.flushAt T]) =
        SchedState.step (runOps ops) (SchedOp.flushAt T) := by
      simp [runOps, List.foldl_append]
    have hlist : (runOps (ops ++ [SchedOp.flushAt T])).list = [] := by
      rw [hstep]
      simpa [SchedState.step] using DelayEventList.flush_all_due _ _ hT
    have hperm2 : ((runOps (ops ++ [SchedOp.flushAt T])).list ++
        (runOps (ops ++ [SchedOp.flushAt T])).log.map Prod.fst).Perm
        (newEvents (ops ++ [SchedOp.flushAt T])) :=
      runOpsFrom_perm (ops ++ [SchedOp.flushAt T]) ⟨[], []⟩
    rw [hlist] at hperm2
    simp only [List.nil_append] at hperm2
    have hnewapp : newEvents (ops ++ [SchedOp.flushAt T]) = newEvents ops := by
      simp [newEvents, List.filterMap_append]
    rw [hnewapp] at hperm2
    have := hperm2.map DelayEvent.func
    rw [newEvents_map_func] at this
    simpa [List.map_map, Function.comp_def] using this

/-- Claim C4, counterexample: action 0 (trigger 100) is added before
action 1 (trigger 1000).  Flushing at tick 100 — the trigger of action 0,
repeated three times with non-decreasing ticks — executes NOTHING (the log
stays empty), and the state is a fixpoint of flushing at tick 100, so
action 0 never runs no matter how often the flush is repeated, refuting
"exactly once eventually if flush keeps being called with non-decreasing
ticks reaching its trigger". -/
theorem claim_C4_counterexample :
    runOps [SchedOp.addEvent 0 100, SchedOp.addEvent 1 1000,
        SchedOp.flushAt 100, SchedOp.flushAt 100, SchedOp.flushAt 100] =
      ⟨[⟨100, 0⟩, ⟨1000, 1⟩], []⟩ ∧
    SchedState.step ⟨[⟨100, 0⟩, ⟨1000, 1⟩], []⟩ (SchedOp.flushAt 100) =
      ⟨[⟨100, 0⟩, ⟨1000, 1⟩], []⟩ := by
  have hf : DelayEventList.flush
      ([⟨100, 0⟩, ⟨1000, 1⟩] : List (DelayEvent ℕ)) 100 =
      ([⟨100, 0⟩, ⟨1000, 1⟩], []) := by
    have := DelayEventList.flush_append_gt [(⟨100, 0⟩ : DelayEvent ℕ)]
      ⟨1000, 1⟩ 100 (by decide)
    simpa using this
  constructor
  · simp [runOps, SchedState.step, DelayEventList.add_event,
      DelayEventList.add, hf]
  · simp [SchedState.step, hf]

/-- Claim C4, witness: for the two-event sequence, one flush at tick 1000
(≥ both triggers) executes each added action exactly once. -/
theorem claim_C4_witness :
    ((runOps ([SchedOp.addEvent 0 100, SchedOp.addEvent 1 1000] ++
        [SchedOp.flushAt 1000])).log.map (fun p => p.1.func)).Perm
      (addedIdents [SchedOp.addEvent 0 100, SchedOp.addEvent 1 1000]) :=
  (claim_C4_amended [SchedOp.addEvent 0 100, SchedOp.addEvent 1 1000] 1000
    (by decide)).2.2 (by decide)

theorem flush_delay_event_nil (c : CustomerCharacter) (t : ℕ)
    (h : c.event_list = []) : c.flush_delay_event t = c := by
  rw [CustomerCharacter.flush_delay_event, h]
  simp [DelayEventList.move_top]

theorem flush_delay_event_blocked (c : CustomerCharacter) (t : ℕ)
    (l : List (DelayEvent CustomerAction)) (e : DelayEvent CustomerAction)
    (h : c.event_list = l ++ [e]) (ht : e.run_time > t) :
    c.flush_delay_event t = c := by
  rw [CustomerCharacter.flush_delay_event]
  split
  next heq =>
    rw [h, DelayEventList.move_top_append] at heq
  next e' rest heq =>
    rw [h, DelayEventList.move_top_append] at heq
    simp only [Option.some.injEq, Prod.mk.injEq] at heq
    obtain ⟨he, hr⟩ := heq
    subst he; subst hr
    rw [if_pos ht]
    cases c
    simp_all [DelayEventList.add]

theorem flush_delay_event_step (c : CustomerCharacter) (t : ℕ)
    (l : List (DelayEvent CustomerAction)) (e : DelayEvent CustomerAction)
    (h : c.event_list = l ++ [e]) (ht : ¬ e.run_time > t) :
    c.flush_delay_event t =
      CustomerCharacter.flush_delay_event
        (runCustomerAction e.func { c with event_list := l }) t := by
  conv_lhs => rw [CustomerCharacter.flush_delay_event]
  split
  next heq =>
    rw [h, DelayEventList.move_top_append] at heq
    exact absurd heq (by simp)
  next e' rest heq =>
    rw [h, DelayEventList.move_top_append] at heq
    simp only [Option.some.injEq, Prod.mk.injEq] at heq
    obtain ⟨he, hr⟩ := heq
    subst he; subst hr
    rw [if_neg ht]

/-- Claim C5: one call of `flush_delay_event` on an empty list does
nothing; when the top (most recently appended) event is not yet due
(`run_time > t`) it is pushed back unexecuted and the flush stops — the
owner is returned completely unchanged, so due events stored behind it are
not run in this flush; when the top event is due, its action is run on the
owner and the loop continues on the rest of the list. -/
theorem claim_C5_flush_stop_policy (c : CustomerCharacter)
    (l : List (DelayEvent CustomerAction)) (e : DelayEvent CustomerAction)
    (t : ℕ) :
    (c.event_list = [] → c.flush_delay_event t = c) ∧
    (c.event_list = l ++ [e] → e.run_time > t → c.flush_delay_event t = c) ∧
    (c.event_list = l ++ [e] → e.run_time ≤ t →
      c.flush_delay_event t =
        CustomerCharacter.flush_delay_event
          (runCustomerAction e.func { c with event_list := l }) t) :=
  ⟨fun h => flush_delay_event_nil c t h,
   fun h ht => flush_delay_event_blocked c t l e h ht,
   fun h ht => flush_delay_event_step c t l e h (by omega)⟩

/-- Claim C5, witness: a customer holding one event due at tick 1000 is
returned unchanged by a flush at tick 100. -/
theorem claim_C5_witness :
    CustomerCharacter.flush_delay_event
      ⟨[⟨1000, CustomerAction.enqueueRouteAndReady none⟩],
        MapObjectRs.MapObject.new ⟨0, 0⟩ ⟨⟨0, 0⟩, ⟨5, -5, 5, -5⟩⟩ ⟨0, 0⟩
          ⟨0, 0, 1, 1⟩,
        ⟨[]⟩, [], CustomerCharacterStatus.Ready, false, ⟨0, 0⟩⟩ 100 =
      ⟨[⟨1000, CustomerAction.enqueueRouteAndReady none⟩],
        MapObjectRs.MapObject.new ⟨0, 0⟩ ⟨⟨0, 0⟩, ⟨5, -5, 5, -5⟩⟩ ⟨0, 0⟩
          ⟨0, 0, 1, 1⟩,
        ⟨[]⟩, [], CustomerCharacterStatus.Ready, false, ⟨0, 0⟩⟩ :=
  (claim_C5_flush_stop_policy _ []
    ⟨1000, CustomerAction.enqueueRouteAndReady none⟩ 100).2.1 rfl (by decide)

/-- Claim C8: in `Ready` with an empty waypoint queue (and a destination
draw that succeeds), one `update_move_effect` step appends exactly one
delay event, due at `t + 100` and capturing the route-computation result,
and immediately sets the status to `WaitOnBookShelf` (every other field is
unchanged).  When the captured event later runs: with a found route it
enqueues the route's waypoints and sets the status back to `Ready`; with
`none` it is a no-op, so the agent stays in whatever state it is in
(`WaitOnBookShelf` — no panic, no other change). -/
theorem claim_C8_schedule_route_request (c : CustomerCharacter)
    (map : StageObjectMap) (ds : Vector2f) (r : ℕ)
    (speedFn : Vector2f → Vector2f → Vector2f) (t : ℕ) (dest : ℕ × ℕ)
    (hq : c.move_queue = [])
    (hd : c.move_data.random_select r = some dest) :
    c.update_move_effect map ds r speedFn t =
      some { c with
        event_list := c.event_list ++
          [⟨t + 100, CustomerAction.enqueueRouteAndReady
            (c.update_current_destination map ds dest)⟩]
        customer_status := CustomerCharacterStatus.WaitOnBookShelf } ∧
    (∀ (s : CustomerCharacter) (route : List Vector2f),
      runCustomerAction (CustomerAction.enqueueRouteAndReady (some route)) s =
        { s with
          move_queue := s.move_queue ++ route
          customer_status := CustomerCharacterStatus.Ready }) ∧
    (∀ s : CustomerCharacter,
      runCustomerAction (CustomerAction.enqueueRouteAndReady none) s = s) := by
  refine ⟨?_, fun s route => rfl, fun s => rfl⟩
  simp [CustomerCharacter.update_move_effect, hq, hd,
    DelayEventList.add_event, DelayEventList.add]

/-- Claim C8, witness: a concrete `Ready` customer with empty queue at
tick 7 ends up with one event due at tick 107 and status
`WaitOnBookShelf`; running the captured action with a one-point route
enqueues it and yields `Ready`. -/
theorem claim_C8_witness :
    (CustomerCharacter.update_move_effect
      ⟨[], MapObjectRs.MapObject.new ⟨0, 0⟩ ⟨⟨0, 0⟩, ⟨5, -5, 5, -5⟩⟩ ⟨0, 0⟩
          ⟨0, 0, 1, 1⟩,
        ⟨[(2, 3)]⟩, [], CustomerCharacterStatus.Ready, false, ⟨0, 0⟩⟩
      ⟨1, 5, 5, fun _ _ => none⟩ ⟨2, 2⟩ 0 (fun _ _ => ⟨0, 0⟩) 7).map
      (fun c => (c.customer_status, c.event_list.map DelayEvent.run_time)) =
      some (CustomerCharacterStatus.WaitOnBookShelf, [107]) ∧
    runCustomerAction (CustomerAction.enqueueRouteAndReady (some [⟨3, 4⟩]))
      ⟨[], MapObjectRs.MapObject.new ⟨0, 0⟩ ⟨⟨0, 0⟩, ⟨5, -5, 5, -5⟩⟩ ⟨0, 0⟩
          ⟨0, 0, 1, 1⟩,
        ⟨[(2, 3)]⟩, [], CustomerCharacterStatus.Ready, false, ⟨0, 0⟩⟩ =
      ⟨[], MapObjectRs.MapObject.new ⟨0, 0⟩ ⟨⟨0, 0⟩, ⟨5, -5, 5, -5⟩⟩ ⟨0, 0⟩
          ⟨0, 0, 1, 1⟩,
        ⟨[(2, 3)]⟩, [⟨3, 4⟩], CustomerCharacterStatus.Ready, false,
        ⟨0, 0⟩⟩ := by
  have h := claim_C8_schedule_route_request
    ⟨[], MapObjectRs.MapObject.new ⟨0, 0⟩ ⟨⟨0, 0⟩, ⟨5, -5, 5, -5⟩⟩ ⟨0, 0⟩
        ⟨0, 0, 1, 1⟩,
      ⟨[(2, 3)]⟩, [], CustomerCharacterStatus.Ready, false, ⟨0, 0⟩⟩
    ⟨1, 5, 5, fun _ _ => none⟩ ⟨2, 2⟩ 0 (fun _ _ => ⟨0, 0⟩) 7 (2, 3)
    rfl (by decide)
  constructor
  · rw [h.1]
    rfl
  · exact h.2.1 _ [⟨3, 4⟩]

/-- Claim C9: for a customer in `Moving` with no pending delay event and a
goal on the tile grid, one `try_update_move_effect` tick with distance to
`current_goal` ≥ 1.5 changes nothing (position, velocity and status are
returned as they were); with distance < 1.5 it snaps the collision-box
position exactly onto `current_goal` (the two-step point's `previous`
keeping the old position), zeroes the velocity, and sets the status to
`Ready` — except that when shopping is not yet done and the goal's tile
equals the counter tile, the status becomes `WaitOnClerk` and the
shopping-done flag is set. -/
theorem claim_C9_moving_arrival (c : CustomerCharacter)
    (map : StageObjectMap) (ds : Vector2f) (counter : ℕ × ℕ) (r : ℕ)
    (speedFn : Vector2f → Vector2f → Vector2f) (t : ℕ) (tl : ℕ × ℕ)
    (hev : c.event_list = [])
    (hst : c.customer_status = CustomerCharacterStatus.Moving)
    (htl : map.map_position_to_tile_position c.current_goal = some tl) :
    (c.is_goal_now ds = false →
      c.try_update_move_effect map ds counter r speedFn t = some c) ∧
    (c.is_goal_now ds = true →
      c.try_update_move_effect map ds counter r speedFn t =
        some { c with
          character := { c.character with
            map_position := ⟨c.character.map_position.current,
              c.current_goal - c.character.get_collision_top_offset ds⟩
            speed_info := { c.character.speed_info with speed := ⟨0, 0⟩ } }
          customer_status :=
            if c.shopping_is_done = false ∧ tl = counter then
              CustomerCharacterStatus.WaitOnClerk
            else CustomerCharacterStatus.Ready
          shopping_is_done := c.shopping_is_done || decide (tl = counter) }) ∧
    MapObjectRs.MapObject.get_map_position_with_collision_top_offset
      { c.character with
        map_position := ⟨c.character.map_position.current,
          c.current_goal - c.character.get_collision_top_offset ds⟩
        speed_info := { c.character.speed_info with speed := ⟨0, 0⟩ } } ds =
      c.current_goal := by
  have hflush : c.flush_delay_event t = c := flush_delay_event_nil c t hev
  refine ⟨?_, ?_, ?_⟩
  · intro hgoal
    simp only [CustomerCharacter.try_update_move_effect, hflush, hst, hgoal,
      Bool.false_eq_true, if_false]
  · intro hgoal
    simp only [CustomerCharacter.try_update_move_effect, hflush, hst, hgoal,
      if_true, CustomerCharacter.reset_speed,
      MapObjectRs.MapObject.set_map_position_with_collision_top_offset,
      MapObjectRs.TwoStepPoint.update, MapObjectRs.TextureSpeedInfo.set_speed,
      htl]
    cases hdone : c.shopping_is_done <;> by_cases htc : tl = counter <;>
      simp [hdone, htc]
  · simp only [MapObjectRs.MapObject.get_map_position_with_collision_top_offset,
      MapObjectRs.MapObject.get_collision_top_offset, Vector2f.sub_def,
      Vector2f.add_def]
    cases hg : c.current_goal
    simp only [Vector2f.mk.injEq]
    constructor <;> ring

/-- Claim C9, witness: a concrete `Moving` customer at collision-box
position (0,0) with goal (1,0) (distance 1 < 1.5), goal tile (1,0) equal
to the counter tile and shopping not done: the tick snaps the position to
the goal, zeroes the speed, sets `WaitOnClerk` and marks shopping done. -/
theorem claim_C9_witness :
    (CustomerCharacter.try_update_move_effect
      ⟨[], MapObjectRs.MapObject.new ⟨0, 0⟩ ⟨⟨0, 0⟩, ⟨5, -5, 5, -5⟩⟩ ⟨0, 0⟩
          ⟨0, 0, 1, 1⟩,
        ⟨[(0, 0)]⟩, [], CustomerCharacterStatus.Moving, false, ⟨1, 0⟩⟩
      ⟨1, 5, 5, fun _ _ => none⟩ ⟨2, 2⟩ (1, 0) 0 (fun _ _ => ⟨0, 0⟩) 9).map
      (fun c => (c.customer_status, c.shopping_is_done,
        c.character.map_position.current, c.character.speed_info.speed)) =
      some (CustomerCharacterStatus.WaitOnClerk, true, ⟨1, 0⟩, ⟨0, 0⟩) := by
  have h := (claim_C9_moving_arrival
    ⟨[], MapObjectRs.MapObject.new ⟨0, 0⟩ ⟨⟨0, 0⟩, ⟨5, -5, 5, -5⟩⟩ ⟨0, 0⟩
        ⟨0, 0, 1, 1⟩,
      ⟨[(0, 0)]⟩, [], CustomerCharacterStatus.Moving, false, ⟨1, 0⟩⟩
    ⟨1, 5, 5, fun _ _ => none⟩ ⟨2, 2⟩ (1, 0) 0 (fun _ _ => ⟨0, 0⟩) 9 (1, 0)
    rfl rfl
    (by norm_num [StageObjectMap.map_position_to_tile_position])).2.1
    (by norm_num [CustomerCharacter.is_goal_now,
      MapObjectRs.MapObject.get_map_position_with_collision_top_offset,
      MapObjectRs.MapObject.get_collision_top_offset,
      MapObjectRs.MapObject.new])
  rw [h]
  norm_num [MapObjectRs.MapObject.new,
    MapObjectRs.MapObject.get_collision_top_offset, Vector2f.mk.injEq]
